import Mathlib

/-!
Verification of the artist-bio-gen-batch utilities.

This file shallowly embeds the core logic of the two CLI programs:

* src/gen_batch_jsonl.py — the Row Normalizer: build_task_row, validate_row,
  the generator process_csv_rows and the consuming loop of
  convert_csv_to_jsonl.  Since the generator is demand-driven, the generator
  body and the consuming loop interleave strictly per row; they are embedded
  as the single recursion convertLoop below, whose per-row steps follow the
  Python source line by line.
* src/batch_tool.py — the Batch Job Orchestrator: cmd_status and
  cmd_retrieve, embedded over the job record returned by the (assumed
  successful) remote status call.

Machine-level effects are made explicit:
* the CSV reader is a list of already-split rows (CsvRow); a row of a
  csv.DictReader is modelled post-keying, with values missing because the
  data row is shorter than the header appearing as none (DictReader restval);
* exceptions are explicit (PyErr / RowExc values);
* a possible UnicodeDecodeError in the input stream is the decodeErrAt
  counter: fetching a row when the counter is zero raises;
* the only genuinely fallible step of the output loop (outfile.write) is an
  oracle writeErr giving the exception message, if any, for each record;
* the bytes written to the output file are modelled as the list of TaskRow
  values serialized (one JSON line each), and "file never created" as none.
-/

namespace ArtistBioGen

/-- Statistics record of gen_batch_jsonl.py (dataclass ConversionStats). -/
structure ConversionStats where
  read : Nat
  written : Nat
  skipped : Nat
deriving Repr, DecidableEq

/-- The value at key "prompt" inside the body of a task row.  The vars field
models the "variables" key of the dict; the version field models the presence
of the "version" key: none means the key is absent from the dict (the code
never stores a null there). -/
structure PromptObj where
  id : String
  vars : List (String × String)
  version : Option String
deriving Repr, DecidableEq

/-- One output row of the Row Normalizer (the dict built by build_task_row;
prompt is the value at body.prompt). -/
structure TaskRow where
  custom_id : String
  method : String
  url : String
  prompt : PromptObj
deriving Repr, DecidableEq

/-- Truthiness of an Optional[str] in Python: None and the empty string are
falsy, every other string is truthy. -/
def pyTruthy : Option String → Bool
  | none => false
  | some s => !(s == "")

/-- gen_batch_jsonl.build_task_row (src/gen_batch_jsonl.py lines 28-54):
the "version" key is set iff prompt_version is truthy, and variables holds
exactly artist_name and artist_data.  The url is the fixed literal
"/v1/responses" (line 50). -/
def build_task_row (artist_id artist_name artist_data prompt_id : String)
    (prompt_version : Option String) : TaskRow :=
  { custom_id := artist_id
    method := "POST"
    url := "/v1/responses"
    prompt :=
      { id := prompt_id
        vars := [("artist_name", artist_name), ("artist_data", artist_data)]
        version := if pyTruthy prompt_version then prompt_version else none } }

/-- Python str.strip(): drop leading and trailing whitespace. -/
def pyStrip (s : String) : String :=
  ⟨(((s.data.dropWhile Char.isWhitespace).reverse).dropWhile Char.isWhitespace).reverse⟩

/-- gen_batch_jsonl.validate_row (lines 57-63): a row is valid iff artist_id
and artist_name are non-empty and not whitespace-only; artist_data is not
inspected. -/
def validate_row (artist_id artist_name artist_data : String) : Bool :=
  if artist_id = "" ∨ pyStrip artist_id = "" then false
  else if artist_name = "" ∨ pyStrip artist_name = "" then false
  else true

/-- One row handed to the loop body of process_csv_rows by the csv module.
A headered constructor models a csv.DictReader row after keying: the value of
a required column is none when the data row is shorter than the header
(DictReader fills missing columns with restval None).  A positional
constructor models a plain csv.reader row, the raw field list. -/
inductive CsvRow where
  | headered (artist_id artist_name artist_data : Option String)
  | positional (fields : List String)
deriving Repr, DecidableEq

/-- A normalized record yielded by process_csv_rows (the dict with keys
artist_id, artist_name, artist_data, all already stripped). -/
structure SourceRecord where
  artist_id : String
  artist_name : String
  artist_data : String
deriving Repr, DecidableEq

/-- The exception a single row extraction can raise inside the try block of
process_csv_rows (lines 92-101): calling .strip() on the None of a missing
DictReader column (AttributeError), or the explicit ValueError for a
positional row with fewer than 3 columns. -/
inductive RowExc where
  | noneAttr
  | shortRow (got : Nat)
deriving Repr, DecidableEq

/-- str(e) for a RowExc, as CPython renders the two exceptions. -/
def RowExc.msg (rowNum : Nat) : RowExc → String
  | .noneAttr => "'NoneType' object has no attribute 'strip'"
  | .shortRow got => "Row " ++ toString rowNum ++ ": Expected 3 columns, got " ++ toString got

/-- Lines 92-101 of process_csv_rows: extract and strip the three fields of
one row, or raise.  In headered mode row['artist_id'].strip() is evaluated
first, then artist_name, then artist_data; a None value raises at its own
.strip() call.  In positional mode a row with fewer than 3 columns raises the
ValueError of line 98 before any field is read. -/
def extractFields : CsvRow → Except RowExc (String × String × String)
  | .headered a b c =>
    match a with
    | none => .error .noneAttr
    | some i =>
      match b with
      | none => .error .noneAttr
      | some n =>
        match c with
        | none => .error .noneAttr
        | some d => .ok (pyStrip i, pyStrip n, pyStrip d)
  | .positional fields =>
    match fields with
    | f0 :: f1 :: f2 :: _ => .ok (pyStrip f0, pyStrip f1, pyStrip f2)
    | _ => .error (.shortRow fields.length)

/-- Exceptions that cross the generator boundary: a ValueError carrying its
message, or the UnicodeDecodeError raised while the csv reader pulls bytes
from the input stream. -/
inductive PyErr where
  | valueError (msg : String)
  | unicodeDecodeError
deriving Repr, DecidableEq

/-- Result of running the fused process_csv_rows / convert_csv_to_jsonl loop:
the three counters of ConversionStats, the task rows written to the output
file (in order, one JSON line each), the warnings logged (in order), how many
rows were fetched from the csv reader, and the exception that ended the loop,
if any (none means the generator was exhausted normally). -/
structure LoopOut where
  read : Nat
  written : Nat
  skipped : Nat
  outLines : List TaskRow
  warnings : List String
  consumed : Nat
  err : Option PyErr
deriving Repr, DecidableEq

/-- The all-zero loop result. -/
def LoopOut.empty : LoopOut :=
  { read := 0, written := 0, skipped := 0, outLines := [], warnings := [],
    consumed := 0, err := none }

/-- Line 88 of process_csv_rows: limit is not None and rows_processed >= limit. -/
def limitReached (limit : Option Int) (rowsProcessed : Int) : Bool :=
  match limit with
  | none => false
  | some l => decide (l ≤ rowsProcessed)

/-- One row was fetched: the countdown to the UnicodeDecodeError decreases. -/
def decOpt : Option Nat → Option Nat
  | none => none
  | some n => some (n - 1)

/-- The per-row prefix the except handler of process_csv_rows puts in front
of str(e) (lines 104, 118). -/
def rowMsg (rowNum : Nat) (exc : String) : String :=
  "Row " ++ toString rowNum ++ ": " ++ exc

/-- The fused loop: the body of the generator process_csv_rows (lines 85-121)
interleaved with the consuming loop of convert_csv_to_jsonl (lines 142-163);
the generator is demand-driven, so per valid row the fetch / limit check /
extraction / validation of the generator run, then the consumer increments
read, builds the task row, serializes and writes it (written, or on a write
exception skipped / abort), then control returns to the generator which
increments rows_processed and fetches the next row.

Arguments: strict flag, limit, the write-failure oracle, prompt_id and
prompt_version as handed to build_task_row, the remaining raw rows, the
countdown to a UnicodeDecodeError in the input bytes (some 0 means the very
next fetch raises), the 1-based row number and the rows_processed counter of
the generator. -/
def convertLoop (strict : Bool) (limit : Option Int)
    (writeErr : SourceRecord → Option String)
    (prompt_id : String) (prompt_version : Option String) :
    List CsvRow → Option Nat → Nat → Int → LoopOut
  | [], _, _, _ => LoopOut.empty
  | row :: rest, dErr, rowNum, rp =>
    if dErr = some 0 then
      { LoopOut.empty with err := some .unicodeDecodeError }
    else if limitReached limit rp then
      { LoopOut.empty with consumed := 1 }
    else
      match extractFields row with
      | .error e =>
        let m := rowMsg rowNum (e.msg rowNum)
        if strict then
          { LoopOut.empty with
            consumed := 1, err := some (.valueError m) }
        else
          let r := convertLoop strict limit writeErr prompt_id prompt_version
            rest (decOpt dErr) (rowNum + 1) rp
          { r with warnings := m :: r.warnings, consumed := r.consumed + 1 }
      | .ok (i, n, d) =>
        if validate_row i n d then
          match writeErr ⟨i, n, d⟩ with
          | none =>
            let r := convertLoop strict limit writeErr prompt_id prompt_version
              rest (decOpt dErr) (rowNum + 1) (rp + 1)
            { r with
              read := r.read + 1, written := r.written + 1,
              outLines := build_task_row i n d prompt_id prompt_version :: r.outLines,
              consumed := r.consumed + 1 }
          | some em =>
            let wm := "Failed to write row for artist_id " ++ i ++ ": " ++ em
            if strict then
              { LoopOut.empty with
                read := 1, consumed := 1, err := some (.valueError wm) }
            else
              let r := convertLoop strict limit writeErr prompt_id prompt_version
                rest (decOpt dErr) (rowNum + 1) (rp + 1)
              { r with
                read := r.read + 1, skipped := r.skipped + 1,
                warnings := wm :: r.warnings, consumed := r.consumed + 1 }
        else
          let vm := rowMsg rowNum "artist_id and artist_name are required"
          if strict then
            { LoopOut.empty with
              consumed := 1, err := some (.valueError (rowMsg rowNum vm)) }
          else
            let r := convertLoop strict limit writeErr prompt_id prompt_version
              rest (decOpt dErr) (rowNum + 1) rp
            { r with warnings := vm :: r.warnings, consumed := r.consumed + 1 }

/-- The input file as convert_csv_to_jsonl sees it when opening and reading:
missing (FileNotFoundError on open), unreadable (PermissionError on open), or
readable with the header line (None when the file is empty; only consulted in
headered mode), the data rows, and an optional countdown after which pulling
the next row raises UnicodeDecodeError (none = the whole file is UTF-8). -/
inductive InputFile where
  | missing
  | permDenied
  | readable (fieldnames : Option (List String)) (rows : List CsvRow)
      (decodeErrAt : Option Nat)
deriving Repr, DecidableEq

/-- The three required column names, in the sorted order the error message of
process_csv_rows lines 78-81 lists them. -/
def expectedColumns : List String := ["artist_data", "artist_id", "artist_name"]

/-- Lines 74-81 of process_csv_rows: in headered mode the required columns
must be a subset of reader.fieldnames (or [] when the file is empty); the
ValueError message when not, with expected names sorted and found names
joined in file order. -/
def headerCheck (fieldnames : Option (List String)) : Option String :=
  let fns := fieldnames.getD []
  if expectedColumns.all (fun c => fns.contains c) then none
  else some ("CSV header must contain: " ++ String.intercalate ", " expectedColumns
    ++ ". Found: " ++ String.intercalate ", " fns)

/-- What a call of convert_csv_to_jsonl leaves behind: the returned stats or
the exception it raises, the output file (none = never created, some lines =
created holding exactly these serialized task rows), all warnings logged, and
how many rows were fetched from the csv reader. -/
instance : DecidableEq (Except PyErr ConversionStats) := fun a b =>
  match a, b with
  | .ok x, .ok y => decidable_of_iff (x = y) (by simp)
  | .error x, .error y => decidable_of_iff (x = y) (by simp)
  | .ok _, .error _ => .isFalse (by simp)
  | .error _, .ok _ => .isFalse (by simp)

structure ConvResult where
  stats : Except PyErr ConversionStats
  output : Option (List TaskRow)
  warnings : List String
  consumed : Nat
deriving Repr, DecidableEq

/-- gen_batch_jsonl.convert_csv_to_jsonl (lines 124-172).  Opening the input
happens first: a missing or unreadable input raises before the output file is
touched, and the FileNotFoundError / PermissionError is re-raised as the
ValueError of lines 165-168.  Once both files are open (the output is created
and truncated by mode 'w'), headered mode validates the header (that
ValueError is not one of the caught classes and propagates as is), then the
fused loop runs; a UnicodeDecodeError from the reader is caught at line 169
and re-raised as the descriptive ValueError, with everything already written
left in the output file. -/
def convert_csv_to_jsonl (input : InputFile) (input_path : String)
    (prompt_id : String) (prompt_version : Option String) (limit : Option Int)
    (skip_header strict : Bool) (writeErr : SourceRecord → Option String) :
    ConvResult :=
  match input with
  | .missing =>
    { stats := .error (.valueError ("Input file not found: " ++ input_path)),
      output := none, warnings := [], consumed := 0 }
  | .permDenied =>
    { stats := .error (.valueError "Permission denied accessing files"),
      output := none, warnings := [], consumed := 0 }
  | .readable fieldnames rows decodeErrAt =>
    let hasHeader := !skip_header
    let headerErr := if hasHeader then headerCheck fieldnames else none
    match headerErr with
    | some m =>
      { stats := .error (.valueError m), output := some [], warnings := [],
        consumed := 0 }
    | none =>
      let r := convertLoop strict limit writeErr prompt_id prompt_version
        rows decodeErrAt 1 0
      { stats :=
          match r.err with
          | none => .ok { read := r.read, written := r.written, skipped := r.skipped }
          | some (.valueError m) => .error (.valueError m)
          | some .unicodeDecodeError =>
            .error (.valueError ("Input file must be UTF-8 encoded: " ++ input_path)),
        output := some r.outLines, warnings := r.warnings, consumed := r.consumed }

/-! ### Batch Job Orchestrator (src/batch_tool.py)

cmd_status and cmd_retrieve are embedded over the job record that the remote
status call get_batch_status returned; the remote call itself and the byte
content of a download are abstracted away (a download that is attempted is
assumed to succeed, and the printed byte counts and timestamps are elided
from the modelled stdout). -/

/-- The fields of the deserialized batch record that cmd_status / cmd_retrieve
interpret.  none models an absent key (dict.get returns None). -/
structure BatchInfo where
  status : Option String
  output_file_id : Option String
deriving Repr, DecidableEq

/-- batch_info.get('status', 'unknown'). -/
def BatchInfo.statusOf (b : BatchInfo) : String := b.status.getD "unknown"

/-- The observable outcome of one subcommand: its exit code, the lines
printed to stdout and stderr, and the downloads attempted as
(output_file_id, destination path) pairs. -/
structure CmdOut where
  exitCode : Nat
  stdout : List String
  stderr : List String
  downloads : List (String × String)
deriving Repr, DecidableEq

/-- The default results path results_<batch_id>.jsonl. -/
def resultsPath (batch_id : String) : String :=
  "results_" ++ batch_id ++ ".jsonl"

/-- batch_tool.cmd_status (lines 271-309), given the job record the status
call returned.  The download is attempted only when status == 'completed' and
auto_save is on and output_file_id is truthy; a completed job with auto-save
on but no (or an empty) output_file_id gets the stderr warning and the
command still exits 0. -/
def cmd_status (batch : BatchInfo) (batch_id : String) (auto_save : Bool) :
    CmdOut :=
  let status := batch.statusOf
  let base : List String := ["Status: " ++ status]
  if status = "completed" ∧ auto_save = true then
    if pyTruthy batch.output_file_id then
      { exitCode := 0,
        stdout := base ++ ["Results saved: " ++ resultsPath batch_id],
        stderr := [],
        downloads := [(batch.output_file_id.getD "", resultsPath batch_id)] }
    else
      { exitCode := 0, stdout := base,
        stderr := ["Warning: Batch completed but no output_file_id found"],
        downloads := [] }
  else
    { exitCode := 0, stdout := base, stderr := [], downloads := [] }

/-- batch_tool.cmd_retrieve (lines 312-345), given the job record the status
call returned.  Any status other than 'completed' is rejected with exit 1 and
the stderr line of line 320, before any download; a completed job with a
falsy output_file_id is rejected with exit 1 (line 327); otherwise the
results are downloaded to --out or the default path. -/
def cmd_retrieve (batch : BatchInfo) (batch_id : String)
    (outArg : Option String) : CmdOut :=
  let status := batch.statusOf
  if status ≠ "completed" then
    { exitCode := 1, stdout := [],
      stderr := ["Error: Batch not completed (status: " ++ status ++ ")"],
      downloads := [] }
  else if pyTruthy batch.output_file_id then
    let path := if pyTruthy outArg then outArg.getD "" else resultsPath batch_id
    { exitCode := 0, stdout := ["Results saved: " ++ path], stderr := [],
      downloads := [(batch.output_file_id.getD "", path)] }
  else
    { exitCode := 1, stdout := [],
      stderr := ["Error: Batch completed but no output_file_id found"],
      downloads := [] }

/-! ### Specification-side helper functions

Transparent restatements used only to phrase the theorems; each is a plain
recursion over the input rows, independent of the loop embedding above. -/

/-- A raw row is valid iff its fields extract without an exception and pass
validate_row. -/
def rowIsValid (row : CsvRow) : Bool :=
  match extractFields row with
  | .ok (i, n, d) => validate_row i n d
  | .error _ => false

/-- How many rows of the input are valid. -/
def countValid (rows : List CsvRow) : Nat := (rows.filter rowIsValid).length

/-- How many rows of the input are invalid (fail extraction or validation). -/
def countInvalid (rows : List CsvRow) : Nat :=
  (rows.filter (fun r => !rowIsValid r)).length

/-- How many rows the reader hands out before the loop stops, when k more
valid rows may still be yielded: every row up to and including the k-th valid
one is fetched, and then one more fetch happens before the limit check of
line 88 breaks the loop. -/
def consumeCount : Int → List CsvRow → Nat
  | _, [] => 0
  | k, r :: rs =>
    if k ≤ 0 then 1
    else consumeCount (if rowIsValid r then k - 1 else k) rs + 1

/-- A header line containing exactly the three required columns. -/
def goodHeader : List String := ["artist_id", "artist_name", "artist_data"]

/-- needle occurs as a contiguous substring of hay. -/
def strContains (hay needle : String) : Prop :=
  ∃ pre post, hay.data = pre ++ needle.data ++ post

/-- Modelled from the spec: section 3 of the spec describes the url field of
a TaskRequest as "target API path, configurable, default /v1/responses",
i.e. a build step that also takes the caller's chosen url and falls back to
the default when none is supplied.  No such parameter exists anywhere in
src/gen_batch_jsonl.py; this definition renders the spec's words so they can
be compared with the build_task_row the code actually has. -/
def build_task_row_specUrl (url : Option String)
    (artist_id artist_name artist_data prompt_id : String)
    (prompt_version : Option String) : TaskRow :=
  { build_task_row artist_id artist_name artist_data prompt_id prompt_version with
    url := url.getD "/v1/responses" }

/-! ### Theorems -/

/-- Character data of a concatenation. -/
theorem data_append (a b : String) : (a ++ b).data = a.data ++ b.data := rfl

/-- Validity count over a cons cell. -/
theorem countValid_cons (r : CsvRow) (rs : List CsvRow) :
    countValid (r :: rs)
      = if rowIsValid r then countValid rs + 1 else countValid rs := by
  by_cases h : rowIsValid r <;> simp [countValid, List.filter_cons, h]

/-- Invalidity count over a cons cell. -/
theorem countInvalid_cons (r : CsvRow) (rs : List CsvRow) :
    countInvalid (r :: rs)
      = if rowIsValid r then countInvalid rs else countInvalid rs + 1 := by
  by_cases h : rowIsValid r <;> simp [countInvalid, List.filter_cons, h]

/-- A full non-strict run with no limit, clean input bytes and no write
failures: no exception, one read and one written per valid row, nothing
skipped, one warning per invalid row, and every row fetched. -/
theorem convertLoop_nonstrict (prompt_id : String) (prompt_version : Option String) :
    ∀ (rows : List CsvRow) (rowNum : Nat) (rp : Int),
      (convertLoop false none (fun _ => none) prompt_id prompt_version rows none rowNum rp).err = none
      ∧ (convertLoop false none (fun _ => none) prompt_id prompt_version rows none rowNum rp).read
          = countValid rows
      ∧ (convertLoop false none (fun _ => none) prompt_id prompt_version rows none rowNum rp).written
          = countValid rows
      ∧ (convertLoop false none (fun _ => none) prompt_id prompt_version rows none rowNum rp).skipped = 0
      ∧ (convertLoop false none (fun _ => none) prompt_id prompt_version rows none rowNum rp).warnings.length
          = countInvalid rows
      ∧ (convertLoop false none (fun _ => none) prompt_id prompt_version rows none rowNum rp).outLines.length
          = countValid rows
      ∧ (convertLoop false none (fun _ => none) prompt_id prompt_version rows none rowNum rp).consumed
          = rows.length := by
  intro rows
  induction rows with
  | nil =>
    intro rowNum rp
    simp [convertLoop, countValid, countInvalid, LoopOut.empty]
  | cons row rest ih =>
    intro rowNum rp
    rcases hext : extractFields row with e | ⟨i, n, d⟩
    · obtain ⟨he, hr, hw, hs, hwl, hol, hc⟩ := ih (rowNum + 1) rp
      have hvalid : rowIsValid row = false := by simp [rowIsValid, hext]
      simp [convertLoop, limitReached, hext, decOpt, he, hr, hw, hs, hwl, hol, hc,
        countValid_cons, countInvalid_cons, hvalid]
    · by_cases hv : validate_row i n d
      · obtain ⟨he, hr, hw, hs, hwl, hol, hc⟩ := ih (rowNum + 1) (rp + 1)
        have hvalid : rowIsValid row = true := by simp [rowIsValid, hext, hv]
        simp [convertLoop, limitReached, hext, decOpt, hv, he, hr, hw, hs, hwl, hol, hc,
          countValid_cons, countInvalid_cons, hvalid]
      · obtain ⟨he, hr, hw, hs, hwl, hol, hc⟩ := ih (rowNum + 1) rp
        have hvalid : rowIsValid row = false := by simp [rowIsValid, hext, hv]
        simp [convertLoop, limitReached, hext, decOpt, hv, he, hr, hw, hs, hwl, hol, hc,
          countValid_cons, countInvalid_cons, hvalid]

/-- The header made of exactly the three required columns passes the check. -/
theorem headerCheck_good : headerCheck (some goodHeader) = none := rfl

/-- Claim C2: a non-strict conversion of an input with M invalid and N valid
rows (all writes succeeding) returns stats with read = N and written = N,
logs one warning per invalid row (M warnings in all), and invalid rows
increment neither read nor written (nor skipped). -/
theorem nonstrict_reads_and_writes_valid_rows :
    ∀ (rows : List CsvRow) (input_path prompt_id : String)
      (prompt_version : Option String) (skip_header : Bool),
      (convert_csv_to_jsonl (.readable (some goodHeader) rows none) input_path
          prompt_id prompt_version none skip_header false (fun _ => none)).stats
        = .ok ⟨countValid rows, countValid rows, 0⟩
      ∧ (convert_csv_to_jsonl (.readable (some goodHeader) rows none) input_path
          prompt_id prompt_version none skip_header false (fun _ => none)).warnings.length
        = countInvalid rows := by
  intro rows input_path pid pv skip_header
  obtain ⟨he, hr, hw, hs, hwl, hol, hc⟩ := convertLoop_nonstrict pid pv rows 1 0
  cases skip_header <;>
    simp [convert_csv_to_jsonl, headerCheck_good, he, hr, hw, hs, hwl]

/-- Claim C1: for every call of build_task_row, the returned task row
contains the key body.prompt.version iff the supplied version is a non-empty
string; when the version is empty or absent the key is entirely absent (the
version field is none, never a null value), and body.prompt.variables holds
exactly the two entries artist_name and artist_data. -/
theorem build_task_row_version_key :
    ∀ (artist_id artist_name artist_data prompt_id : String)
      (prompt_version : Option String),
      ((build_task_row artist_id artist_name artist_data prompt_id prompt_version).prompt.version
          = if pyTruthy prompt_version then prompt_version else none)
      ∧ ((build_task_row artist_id artist_name artist_data prompt_id prompt_version).prompt.version.isSome
          ↔ ∃ s, prompt_version = some s ∧ s ≠ "")
      ∧ (build_task_row artist_id artist_name artist_data prompt_id prompt_version).prompt.vars
          = [("artist_name", artist_name), ("artist_data", artist_data)] := by
  intro aid an ad pid pv
  refine ⟨rfl, ?_, rfl⟩
  cases pv with
  | none => simp [build_task_row, pyTruthy]
  | some s =>
    by_cases h : s = "" <;> simp [build_task_row, pyTruthy, h]

/-- Once rows_processed has reached the limit, the next loop iteration still
fetches one row from the reader and only then breaks. -/
theorem convertLoop_break (strict : Bool) (l : Int)
    (w : SourceRecord → Option String) (pid : String) (pv : Option String)
    (rows : List CsvRow) (rowNum : Nat) (rp : Int) (h : l ≤ rp) :
    convertLoop strict (some l) w pid pv rows none rowNum rp
      = match rows with
        | [] => LoopOut.empty
        | _ :: _ => { LoopOut.empty with consumed := 1 } := by
  cases rows with
  | nil => simp [convertLoop]
  | cons r rs => simp [convertLoop, limitReached, h]

/-- A non-strict run with limit l, clean bytes and no write failures, with
m = l - rows_processed at least 1 and strictly fewer than the valid rows
still ahead: exactly m more rows are read and written, and the reader hands
out consumeCount m rows of the remaining rows — everything up to the m-th
valid row, plus the one row fetched before the limit check breaks. -/
theorem convertLoop_limit (pid : String) (pv : Option String) :
    ∀ (rows : List CsvRow) (m : Nat) (rowNum : Nat) (rp l : Int),
      l - rp = (m : Int) → 1 ≤ m → m < countValid rows →
      (convertLoop false (some l) (fun _ => none) pid pv rows none rowNum rp).err = none
      ∧ (convertLoop false (some l) (fun _ => none) pid pv rows none rowNum rp).read = m
      ∧ (convertLoop false (some l) (fun _ => none) pid pv rows none rowNum rp).written = m
      ∧ (convertLoop false (some l) (fun _ => none) pid pv rows none rowNum rp).skipped = 0
      ∧ (convertLoop false (some l) (fun _ => none) pid pv rows none rowNum rp).outLines.length = m
      ∧ (convertLoop false (some l) (fun _ => none) pid pv rows none rowNum rp).consumed
          = consumeCount (m : Int) rows := by
  intro rows
  induction rows with
  | nil =>
    intro m rowNum rp l hm h1 hcv
    simp [countValid] at hcv
  | cons row rest ih =>
    intro m rowNum rp l hm h1 hcv
    have hm0 : ¬ ((m : Int) ≤ 0) := by omega
    have hlr : limitReached (some l) rp = false := by
      simp [limitReached]; omega
    rcases hext : extractFields row with e | ⟨i, n, d⟩
    · have hvalid : rowIsValid row = false := by simp [rowIsValid, hext]
      have hcv' : m < countValid rest := by
        rw [countValid_cons, hvalid] at hcv; simpa using hcv
      obtain ⟨he, hr, hw, hs, hol, hc⟩ := ih m (rowNum + 1) rp l hm h1 hcv'
      simp [convertLoop, hlr, hext, decOpt, he, hr, hw, hs, hol, hc,
        consumeCount, hvalid, hm0]
    · by_cases hv : validate_row i n d
      · have hvalid : rowIsValid row = true := by simp [rowIsValid, hext, hv]
        cases m with
        | zero => omega
        | succ mm =>
          cases mm with
          | zero =>
            have hlr1 : limitReached (some l) (rp + 1) = true := by
              simp [limitReached]; omega
            rcases hrest : rest with _ | ⟨r2, rs2⟩
            · rw [hrest] at hcv
              rw [countValid_cons, hvalid] at hcv
              simp [countValid] at hcv
            · subst hrest
              simp [convertLoop, hlr, hlr1, hext, hv, decOpt,
                consumeCount, hvalid, LoopOut.empty]
          | succ nn =>
            have hm' : l - (rp + 1) = ((nn + 1 : Nat) : Int) := by
              push_cast at hm ⊢; omega
            have h1' : 1 ≤ nn + 1 := by omega
            have hcv' : nn + 1 < countValid rest := by
              simp [countValid_cons, hvalid] at hcv; omega
            obtain ⟨he, hr, hw, hs, hol, hc⟩ :=
              ih (nn + 1) (rowNum + 1) (rp + 1) l hm' h1' hcv'
            have hcast : ((nn + 1 + 1 : Nat) : Int) - 1 = ((nn + 1 : Nat) : Int) := by
              push_cast; ring
            simp [convertLoop, hlr, hext, hv, decOpt, he, hr, hw, hs, hol, hc,
              consumeCount, hvalid, hm0, hcast]
            split <;> omega
      · have hvalid : rowIsValid row = false := by simp [rowIsValid, hext, hv]
        have hcv' : m < countValid rest := by
          rw [countValid_cons, hvalid] at hcv; simpa using hcv
        obtain ⟨he, hr, hw, hs, hol, hc⟩ := ih m (rowNum + 1) rp l hm h1 hcv'
        simp [convertLoop, hlr, hext, hv, decOpt, he, hr, hw, hs, hol, hc,
          consumeCount, hvalid, hm0]

/-- Claim C3 fails on the code in its last part: with limit 1 and an input of
two valid rows, the loop of process_csv_rows fetches and parses the second
row from the csv reader (consumed = 2) before the rows_processed >= limit
check of line 88 breaks — the row just beyond the limit is read, even though
only one valid row is yielded and written. -/
theorem limit_reads_one_row_past_cex :
    (convert_csv_to_jsonl (.readable (some goodHeader)
        [.positional ["a1", "NewJeans", "K-pop group"],
         .positional ["a2", "Stereolab", "Post-rock band"]] none)
      "in.csv" "p1" none (some 1) false false (fun _ => none)).stats
      = .ok ⟨1, 1, 0⟩
    ∧ (convert_csv_to_jsonl (.readable (some goodHeader)
        [.positional ["a1", "NewJeans", "K-pop group"],
         .positional ["a2", "Stereolab", "Post-rock band"]] none)
      "in.csv" "p1" none (some 1) false false (fun _ => none)).consumed = 2 := by
  exact ⟨rfl, rfl⟩

/-- Claim C3, amended: for a positive limit k and an input with more than k
valid rows, the non-strict conversion (all writes succeeding) stops after
yielding exactly k valid rows — stats.read = stats.written = k and exactly k
output lines are written — and the reader hands out consumeCount k rows of
the input: every row up to and including the k-th valid one, plus the single
row fetched just before the limit check breaks the loop; no row after that
one is ever read or parsed. -/
theorem limit_stops_after_k_valid (rows : List CsvRow)
    (input_path prompt_id : String) (prompt_version : Option String)
    (skip_header : Bool) (k : Nat) (hk : 1 ≤ k) (hv : k < countValid rows) :
    (convert_csv_to_jsonl (.readable (some goodHeader) rows none) input_path
        prompt_id prompt_version (some (k : Int)) skip_header false
        (fun _ => none)).stats
      = .ok ⟨k, k, 0⟩
    ∧ (convert_csv_to_jsonl (.readable (some goodHeader) rows none) input_path
        prompt_id prompt_version (some (k : Int)) skip_header false
        (fun _ => none)).output.map List.length = some k
    ∧ (convert_csv_to_jsonl (.readable (some goodHeader) rows none) input_path
        prompt_id prompt_version (some (k : Int)) skip_header false
        (fun _ => none)).consumed = consumeCount (k : Int) rows := by
  have hm : (k : Int) - 0 = (k : Int) := by ring
  obtain ⟨he, hr, hw, hs, hol, hc⟩ :=
    convertLoop_limit prompt_id prompt_version rows k 1 0 (k : Int) hm hk hv
  cases skip_header <;>
    simp [convert_csv_to_jsonl, headerCheck_good, he, hr, hw, hs, hol, hc]

/-- Witness for the amended C3 at limit 1 over three valid rows. -/
theorem limit_stops_after_k_valid_witness :
    (convert_csv_to_jsonl (.readable (some goodHeader)
        [.positional ["a1", "x", ""], .positional ["a2", "y", ""],
         .positional ["a3", "z", ""]] none)
      "in.csv" "p1" none (some ((1 : Nat) : Int)) true false
      (fun _ => none)).stats
      = .ok ⟨1, 1, 0⟩
    ∧ (convert_csv_to_jsonl (.readable (some goodHeader)
        [.positional ["a1", "x", ""], .positional ["a2", "y", ""],
         .positional ["a3", "z", ""]] none)
      "in.csv" "p1" none (some ((1 : Nat) : Int)) true false
      (fun _ => none)).output.map List.length = some 1
    ∧ (convert_csv_to_jsonl (.readable (some goodHeader)
        [.positional ["a1", "x", ""], .positional ["a2", "y", ""],
         .positional ["a3", "z", ""]] none)
      "in.csv" "p1" none (some ((1 : Nat) : Int)) true false
      (fun _ => none)).consumed
      = consumeCount ((1 : Nat) : Int)
          [.positional ["a1", "x", ""], .positional ["a2", "y", ""],
           .positional ["a3", "z", ""]] :=
  limit_stops_after_k_valid
    [.positional ["a1", "x", ""], .positional ["a2", "y", ""],
     .positional ["a3", "z", ""]]
    "in.csv" "p1" none true 1 (by decide) (by decide)

/-- Claim C4 fails on the code: the spec describes the url of a TaskRequest
as caller-configurable with default "/v1/responses", but build_task_row
(src/gen_batch_jsonl.py line 50) hardcodes the url and has no url parameter
at all; the configurable build step the spec describes
(build_task_row_specUrl) produces, for a caller-supplied url, a row that
build_task_row can never produce. -/
theorem url_not_configurable_cex :
    build_task_row_specUrl (some "/v1/chat/completions") "a1" "NewJeans" "K-pop group" "p1" none
      ≠ build_task_row "a1" "NewJeans" "K-pop group" "p1" none := by
  decide

/-- Claim C4, amended: every TaskRequest produced by the Row Normalizer has
the fixed literal "/v1/responses" as its url field; the caller has no way to
configure it. -/
theorem url_always_default :
    ∀ (artist_id artist_name artist_data prompt_id : String)
      (prompt_version : Option String),
      (build_task_row artist_id artist_name artist_data prompt_id prompt_version).url
        = "/v1/responses" :=
  fun _ _ _ _ _ => rfl

/-- Claim C5: for every job whose reported status is not "completed", the
retrieve command exits 1 with a stderr message containing both the substring
"not completed" and the actual status string, and performs no download. -/
theorem retrieve_rejects_incomplete (b : BatchInfo) (batch_id : String)
    (outArg : Option String) (h : b.statusOf ≠ "completed") :
    (cmd_retrieve b batch_id outArg).exitCode = 1
    ∧ (cmd_retrieve b batch_id outArg).downloads = []
    ∧ (cmd_retrieve b batch_id outArg).stderr
        = ["Error: Batch not completed (status: " ++ b.statusOf ++ ")"]
    ∧ strContains ("Error: Batch not completed (status: " ++ b.statusOf ++ ")")
        "not completed"
    ∧ strContains ("Error: Batch not completed (status: " ++ b.statusOf ++ ")")
        b.statusOf := by
  refine ⟨?_, ?_, ?_, ?_, ?_⟩
  · simp [cmd_retrieve, h]
  · simp [cmd_retrieve, h]
  · simp [cmd_retrieve, h]
  · refine ⟨"Error: Batch ".data,
      " (status: ".data ++ b.statusOf.data ++ ")".data, ?_⟩
    simp only [data_append, List.append_assoc]
    simp
  · refine ⟨"Error: Batch not completed (status: ".data, ")".data, ?_⟩
    simp only [data_append, List.append_assoc]

/-- Witness for C5 at a concrete failed job. -/
theorem retrieve_rejects_incomplete_witness :
    (cmd_retrieve ⟨some "failed", none⟩ "batch_1" none).exitCode = 1
    ∧ (cmd_retrieve ⟨some "failed", none⟩ "batch_1" none).downloads = []
    ∧ (cmd_retrieve ⟨some "failed", none⟩ "batch_1" none).stderr
        = ["Error: Batch not completed (status: "
            ++ (⟨some "failed", none⟩ : BatchInfo).statusOf ++ ")"]
    ∧ strContains
        ("Error: Batch not completed (status: "
          ++ (⟨some "failed", none⟩ : BatchInfo).statusOf ++ ")")
        "not completed"
    ∧ strContains
        ("Error: Batch not completed (status: "
          ++ (⟨some "failed", none⟩ : BatchInfo).statusOf ++ ")")
        (⟨some "failed", none⟩ : BatchInfo).statusOf :=
  retrieve_rejects_incomplete ⟨some "failed", none⟩ "batch_1" none (by decide)

/-- Claim C6: the status command attempts a result download (to
results_<batch_id>.jsonl) iff the job's status is "completed", an
output_file_id is present (truthy) and auto-save is enabled; it always exits
0, and for a completed job with no output_file_id it emits the stderr
warning while the retrieve command on the same job exits 1. -/
theorem status_autosave_policy :
    ∀ (b : BatchInfo) (batch_id : String) (auto_save : Bool),
      ((cmd_status b batch_id auto_save).downloads
          = if (b.statusOf = "completed" ∧ auto_save = true)
                ∧ pyTruthy b.output_file_id = true then
              [(b.output_file_id.getD "", resultsPath batch_id)]
            else [])
      ∧ (cmd_status b batch_id auto_save).exitCode = 0
      ∧ (b.statusOf = "completed" → pyTruthy b.output_file_id = false →
          (cmd_status b batch_id true).stderr
              = ["Warning: Batch completed but no output_file_id found"]
          ∧ (cmd_retrieve b batch_id none).exitCode = 1) := by
  intro b bid auto_save
  refine ⟨?_, ?_, ?_⟩
  · by_cases h1 : b.statusOf = "completed" ∧ auto_save = true
    · by_cases h2 : pyTruthy b.output_file_id
      · simp [cmd_status, h1, h2]
      · simp [cmd_status, h1, h2]
    · simp [cmd_status, h1]
  · by_cases h1 : b.statusOf = "completed" ∧ auto_save = true
    · by_cases h2 : pyTruthy b.output_file_id
      · simp [cmd_status, h1, h2]
      · simp [cmd_status, h1, h2]
    · simp [cmd_status, h1]
  · intro hc ht
    constructor
    · simp [cmd_status, hc, ht]
    · simp [cmd_retrieve, hc, ht]

/-- In a non-strict unlimited run, undecodable bytes d rows ahead are always
reached: every per-row failure is warned and skipped, so the loop keeps
fetching until the reader raises UnicodeDecodeError. -/
theorem convertLoop_decode (pid : String) (pv : Option String)
    (w : SourceRecord → Option String) :
    ∀ (rows : List CsvRow) (d : Nat) (rowNum : Nat) (rp : Int),
      d < rows.length →
      (convertLoop false none w pid pv rows (some d) rowNum rp).err
        = some .unicodeDecodeError := by
  intro rows
  induction rows with
  | nil =>
    intro d rowNum rp hd
    simp at hd
  | cons row rest ih =>
    intro d rowNum rp hd
    by_cases h0 : d = 0
    · subst h0
      simp [convertLoop]
    · have hd' : d - 1 < rest.length := by
        simp at hd; omega
      have hrec1 := ih (d - 1) (rowNum + 1) rp hd'
      have hrec2 := ih (d - 1) (rowNum + 1) (rp + 1) hd'
      rcases hext : extractFields row with e | ⟨i, n, dd⟩
      · simp [convertLoop, limitReached, h0, hext, decOpt, hrec1]
      · by_cases hv : validate_row i n dd
        · rcases hw : w ⟨i, n, dd⟩ with _ | em
          · simp [convertLoop, limitReached, h0, hext, hv, hw, decOpt, hrec2]
          · simp [convertLoop, limitReached, h0, hext, hv, hw, decOpt, hrec2]
        · simp [convertLoop, limitReached, h0, hext, hv, decOpt, hrec1]

/-- Claim C7 fails on the code in its "no partial output on disk" part: with
one valid row followed by undecodable bytes, the conversion raises the
descriptive UTF-8 ValueError, but by then the output file has been created
(mode 'w' opens it before any row is read) and still contains the one task
row written before the decode error — partial output remains on disk. -/
theorem utf8_partial_output_cex :
    (convert_csv_to_jsonl (.readable none
        [.positional ["a1", "NewJeans", "K-pop group"],
         .positional ["a2", "Stereolab", "Post-rock band"]] (some 1))
      "in.csv" "p1" none none true false (fun _ => none)).stats
      = .error (.valueError "Input file must be UTF-8 encoded: in.csv")
    ∧ (convert_csv_to_jsonl (.readable none
        [.positional ["a1", "NewJeans", "K-pop group"],
         .positional ["a2", "Stereolab", "Post-rock band"]] (some 1))
      "in.csv" "p1" none none true false (fun _ => none)).output
      = some [build_task_row "a1" "NewJeans" "K-pop group" "p1" none] := by
  exact ⟨rfl, rfl⟩

/-- Claim C7, amended: a missing input file and a permission error are
detected when opening the files, so the whole operation fails with the
descriptive ValueError before the output file is even created (output none);
undecodable input bytes, however, are only hit while rows are being read:
an unlimited non-strict run then fails with the descriptive UTF-8 ValueError,
but the output file exists (it was created when opened for writing) and keeps
the rows already converted before the error. -/
theorem input_failure_modes (input_path prompt_id : String)
    (prompt_version : Option String) (limit : Option Int)
    (skip_header strict : Bool) (w : SourceRecord → Option String)
    (rows : List CsvRow) (d : Nat) (hd : d < rows.length) :
    ((convert_csv_to_jsonl .missing input_path prompt_id prompt_version limit
          skip_header strict w).stats
        = .error (.valueError ("Input file not found: " ++ input_path))
      ∧ (convert_csv_to_jsonl .missing input_path prompt_id prompt_version limit
          skip_header strict w).output = none)
    ∧ ((convert_csv_to_jsonl .permDenied input_path prompt_id prompt_version limit
          skip_header strict w).stats
        = .error (.valueError "Permission denied accessing files")
      ∧ (convert_csv_to_jsonl .permDenied input_path prompt_id prompt_version limit
          skip_header strict w).output = none)
    ∧ ((convert_csv_to_jsonl (.readable (some goodHeader) rows (some d))
          input_path prompt_id prompt_version none skip_header false w).stats
        = .error (.valueError ("Input file must be UTF-8 encoded: " ++ input_path))
      ∧ (convert_csv_to_jsonl (.readable (some goodHeader) rows (some d))
          input_path prompt_id prompt_version none skip_header false w).output.isSome
        = true) := by
  refine ⟨⟨rfl, rfl⟩, ⟨rfl, rfl⟩, ?_, ?_⟩
  · have he := convertLoop_decode prompt_id prompt_version w rows d 1 0 hd
    cases skip_header <;>
      simp [convert_csv_to_jsonl, headerCheck_good, he]
  · cases skip_header <;>
      simp [convert_csv_to_jsonl, headerCheck_good]

/-- Witness for the amended C7: one valid row, then undecodable bytes. -/
theorem input_failure_modes_witness :
    ((convert_csv_to_jsonl .missing "in.csv" "p1" none none true false
          (fun _ => none)).stats
        = .error (.valueError ("Input file not found: " ++ "in.csv"))
      ∧ (convert_csv_to_jsonl .missing "in.csv" "p1" none none true false
          (fun _ => none)).output = none)
    ∧ ((convert_csv_to_jsonl .permDenied "in.csv" "p1" none none true false
          (fun _ => none)).stats
        = .error (.valueError "Permission denied accessing files")
      ∧ (convert_csv_to_jsonl .permDenied "in.csv" "p1" none none true false
          (fun _ => none)).output = none)
    ∧ ((convert_csv_to_jsonl (.readable (some goodHeader)
          [.positional ["a1", "x", "y"], .positional ["a2", "z", "w"]] (some 1))
          "in.csv" "p1" none none true false (fun _ => none)).stats
        = .error (.valueError ("Input file must be UTF-8 encoded: " ++ "in.csv"))
      ∧ (convert_csv_to_jsonl (.readable (some goodHeader)
          [.positional ["a1", "x", "y"], .positional ["a2", "z", "w"]] (some 1))
          "in.csv" "p1" none none true false (fun _ => none)).output.isSome
        = true) :=
  input_failure_modes "in.csv" "p1" none none true false (fun _ => none)
    [.positional ["a1", "x", "y"], .positional ["a2", "z", "w"]] 1 (by decide)

/-- On every loop path that ends without an exception, each row counted as
read was counted exactly once as written or skipped. -/
theorem convertLoop_balance (strict : Bool) (limit : Option Int)
    (w : SourceRecord → Option String) (pid : String) (pv : Option String) :
    ∀ (rows : List CsvRow) (dErr : Option Nat) (rowNum : Nat) (rp : Int),
      (convertLoop strict limit w pid pv rows dErr rowNum rp).err = none →
      (convertLoop strict limit w pid pv rows dErr rowNum rp).read
        = (convertLoop strict limit w pid pv rows dErr rowNum rp).written
          + (convertLoop strict limit w pid pv rows dErr rowNum rp).skipped := by
  intro rows
  induction rows with
  | nil =>
    intro dErr rowNum rp _
    simp [convertLoop, LoopOut.empty]
  | cons row rest ih =>
    intro dErr rowNum rp herr
    by_cases h0 : dErr = some 0
    · subst h0
      simp [convertLoop] at herr
    · by_cases hlr : limitReached limit rp
      · simp [convertLoop, h0, hlr, LoopOut.empty]
      · rcases hext : extractFields row with e | ⟨i, n, d⟩
        · cases strict with
          | true =>
            rw [convertLoop] at herr
            simp [h0, hlr, hext] at herr
          | false =>
            have hrec := ih (decOpt dErr) (rowNum + 1) rp
            rw [convertLoop] at herr ⊢
            simp [h0, hlr, hext] at herr ⊢
            exact hrec herr
        · by_cases hv : validate_row i n d
          · rcases hw : w ⟨i, n, d⟩ with _ | em
            · have hrec := ih (decOpt dErr) (rowNum + 1) (rp + 1)
              rw [convertLoop] at herr ⊢
              simp [h0, hlr, hext, hv, hw] at herr ⊢
              have hb := hrec herr
              omega
            · cases strict with
              | true =>
                rw [convertLoop] at herr
                simp [h0, hlr, hext, hv, hw] at herr
              | false =>
                have hrec := ih (decOpt dErr) (rowNum + 1) (rp + 1)
                rw [convertLoop] at herr ⊢
                simp [h0, hlr, hext, hv, hw] at herr ⊢
                have hb := hrec herr
                omega
          · cases strict with
            | true =>
              rw [convertLoop] at herr
              simp [h0, hlr, hext, hv] at herr
            | false =>
              have hrec := ih (decOpt dErr) (rowNum + 1) rp
              rw [convertLoop] at herr ⊢
              simp [h0, hlr, hext, hv] at herr ⊢
              exact hrec herr

/-- Claim C8: whenever convert_csv_to_jsonl returns normally, the returned
ConversionStats satisfies read = written + skipped: each row counted as read
is counted exactly once as written or skipped. -/
theorem stats_read_eq_written_add_skipped (input : InputFile)
    (input_path prompt_id : String) (prompt_version : Option String)
    (limit : Option Int) (skip_header strict : Bool)
    (w : SourceRecord → Option String) (s : ConversionStats)
    (hs : (convert_csv_to_jsonl input input_path prompt_id prompt_version limit
            skip_header strict w).stats = .ok s) :
    s.read = s.written + s.skipped := by
  cases input with
  | missing => simp [convert_csv_to_jsonl] at hs
  | permDenied => simp [convert_csv_to_jsonl] at hs
  | readable fieldnames rows dErr =>
    rw [convert_csv_to_jsonl] at hs
    rcases hh : (if (!skip_header) = true then headerCheck fieldnames else none) with _ | m
    · rw [hh] at hs
      simp only at hs
      rcases herr : (convertLoop strict limit w prompt_id prompt_version rows dErr 1 0).err
        with _ | e
      · rw [herr] at hs
        simp only [Except.ok.injEq] at hs
        have hb := convertLoop_balance strict limit w prompt_id prompt_version
          rows dErr 1 0 herr
        rw [← hs]
        simpa using hb
      · rw [herr] at hs
        cases e <;> simp at hs
    · rw [hh] at hs
      simp at hs

/-- Witness for C8: a valid row whose write fails in non-strict mode, giving
stats read 1, written 0, skipped 1. -/
theorem stats_read_eq_written_add_skipped_witness :
    (⟨1, 0, 1⟩ : ConversionStats).read
      = (⟨1, 0, 1⟩ : ConversionStats).written + (⟨1, 0, 1⟩ : ConversionStats).skipped :=
  stats_read_eq_written_add_skipped
    (.readable none [.positional ["a1", "x", "y"]] none) "in.csv" "p" none
    none true false (fun _ => some "disk full") ⟨1, 0, 1⟩ rfl

/-- Claim C9: with a non-positive limit the very first iteration fetches one
row (if any) and breaks before yielding anything, so a run that returns
normally returns stats 0/0/0 and the output file is created but left empty. -/
theorem nonpositive_limit_yields_nothing (fieldnames : Option (List String))
    (rows : List CsvRow) (dErr : Option Nat) (input_path prompt_id : String)
    (prompt_version : Option String) (skip_header strict : Bool)
    (w : SourceRecord → Option String) (l : Int) (hl : l ≤ 0)
    (s : ConversionStats)
    (hs : (convert_csv_to_jsonl (.readable fieldnames rows dErr) input_path
            prompt_id prompt_version (some l) skip_header strict w).stats = .ok s) :
    (convert_csv_to_jsonl (.readable fieldnames rows dErr) input_path
        prompt_id prompt_version (some l) skip_header strict w).output = some []
    ∧ s = ⟨0, 0, 0⟩ := by
  have hloop : ∀ res : LoopOut,
      res = convertLoop strict (some l) w prompt_id prompt_version rows dErr 1 0 →
      res.outLines = [] ∧ (res.err = none → res.read = 0 ∧ res.written = 0 ∧ res.skipped = 0) := by
    intro res hres
    cases rows with
    | nil =>
      rw [convertLoop] at hres
      subst hres
      simp [LoopOut.empty]
    | cons row rest =>
      by_cases h0 : dErr = some 0
      · subst h0
        rw [convertLoop] at hres
        simp at hres
        subst hres
        simp [LoopOut.empty]
      · have hlr : limitReached (some l) 0 = true := by
          simp [limitReached]; omega
        rw [convertLoop] at hres
        simp [h0, hlr] at hres
        subst hres
        simp [LoopOut.empty]
  rw [convert_csv_to_jsonl] at hs ⊢
  rcases hh : (if (!skip_header) = true then headerCheck fieldnames else none) with _ | m
  · rw [hh] at hs
    simp only at hs ⊢
    obtain ⟨hout, hcnt⟩ :=
      hloop (convertLoop strict (some l) w prompt_id prompt_version rows dErr 1 0) rfl
    rcases herr : (convertLoop strict (some l) w prompt_id prompt_version rows dErr 1 0).err
      with _ | e
    · rw [herr] at hs
      simp only [Except.ok.injEq] at hs
      obtain ⟨h1, h2, h3⟩ := hcnt herr
      constructor
      · simp [hout]
      · rw [← hs]
        simp [h1, h2, h3]
    · rw [herr] at hs
      cases e <;> simp at hs
  · rw [hh] at hs
    simp at hs

/-- Witness for C9 at limit 0 over a one-row input. -/
theorem nonpositive_limit_yields_nothing_witness :
    (convert_csv_to_jsonl (.readable none [.positional ["a1", "x", "y"]] none)
        "in.csv" "p" none (some 0) true false (fun _ => none)).output = some []
    ∧ (⟨0, 0, 0⟩ : ConversionStats) = ⟨0, 0, 0⟩ :=
  nonpositive_limit_yields_nothing none [.positional ["a1", "x", "y"]] none
    "in.csv" "p" none true false (fun _ => none) 0 (by decide) ⟨0, 0, 0⟩ rfl

/-- Claim C10: in headered mode, a data row shorter than the header (some
required field is None) never crashes the conversion: the AttributeError of
the .strip() call is caught by the except handler of process_csv_rows and
treated exactly like a row validation failure — in strict mode the loop
aborts with the descriptive, row-numbered ValueError, and in non-strict mode
it logs one row-numbered warning and continues with the remaining rows,
leaving counters and rows_processed untouched. -/
theorem short_headered_row_handled (a b c : Option String) (rest : List CsvRow)
    (rowNum : Nat) (rp : Int) (prompt_id : String) (prompt_version : Option String)
    (w : SourceRecord → Option String) (h : a = none ∨ b = none ∨ c = none) :
    (convertLoop true none w prompt_id prompt_version
        (.headered a b c :: rest) none rowNum rp
      = { LoopOut.empty with
          consumed := 1,
          err := some (.valueError
            (rowMsg rowNum "'NoneType' object has no attribute 'strip'")) })
    ∧ (convertLoop false none w prompt_id prompt_version
        (.headered a b c :: rest) none rowNum rp
      = { convertLoop false none w prompt_id prompt_version rest none (rowNum + 1) rp with
          warnings := rowMsg rowNum "'NoneType' object has no attribute 'strip'"
            :: (convertLoop false none w prompt_id prompt_version rest none (rowNum + 1) rp).warnings,
          consumed := (convertLoop false none w prompt_id prompt_version rest none (rowNum + 1) rp).consumed + 1 }) := by
  have hext : extractFields (.headered a b c) = .error .noneAttr := by
    rcases h with h | h | h
    · subst h; rfl
    · cases a with
      | none => rfl
      | some i => subst h; rfl
    · cases a with
      | none => rfl
      | some i =>
        cases b with
        | none => rfl
        | some n => subst h; rfl
  constructor
  · rw [convertLoop]
    simp [limitReached, hext, RowExc.msg]
  · rw [convertLoop]
    simp [limitReached, hext, decOpt, RowExc.msg]

/-- Witness for C10: a headered row missing artist_name and artist_data. -/
theorem short_headered_row_handled_witness :
    (convertLoop true none (fun _ => none) "p" none
        (.headered (some "a1") none none :: []) none 1 0
      = { LoopOut.empty with
          consumed := 1,
          err := some (.valueError
            (rowMsg 1 "'NoneType' object has no attribute 'strip'")) })
    ∧ (convertLoop false none (fun _ => none) "p" none
        (.headered (some "a1") none none :: []) none 1 0
      = { convertLoop false none (fun _ => none) "p" none [] none (1 + 1) 0 with
          warnings := rowMsg 1 "'NoneType' object has no attribute 'strip'"
            :: (convertLoop false none (fun _ => none) "p" none [] none (1 + 1) 0).warnings,
          consumed := (convertLoop false none (fun _ => none) "p" none [] none (1 + 1) 0).consumed + 1 }) :=
  short_headered_row_handled (some "a1") none none [] 1 0 "p" none
    (fun _ => none) (Or.inr (Or.inl rfl))

end ArtistBioGen
